import Mathlib

/-!
Verification of the kubeconfig resolution core of
`lib/promscrape/discovery/kubernetes/kubeconfig.go`.

The development shallowly embeds the decoded configuration model
(`Config`, `Cluster`, `AuthInfo`, `Context`), the name-keyed map
construction used by `buildConfig`, the `AuthInfo.validate` checker, and
the resolution algorithm of `buildConfig` (everything after the external
file read and YAML decode), together with a model of Go's
`encoding/base64` standard decoding used for the inline certificate
fields.  Go nil pointers for the optional nested bodies are modelled as
`Option`; Go maps built by the three insertion loops are modelled by the
function `mkMap`, whose lookup of a possibly-nil stored pointer is
`lookupPtr` (absent key and stored nil pointer both yield `none`, exactly
as a Go map of pointers).
-/

set_option maxRecDepth 4096

namespace Kubeconfig

/-- Cluster contains information about how to communicate with a
kubernetes cluster (kubeconfig.go lines 41-48).  `ProxyURL` is a pointer
to the external opaque `proxy.URL`, modelled as `Option String`.  Field
defaults are Go zero values, i.e. the values the fields hold when absent
from the YAML document. -/
structure Cluster where
  Server : String := ""
  TLSServerName : String := ""
  InsecureSkipTLSVerify : Bool := false
  CertificateAuthority : String := ""
  CertificateAuthorityData : String := ""
  ProxyURL : Option String := none
deriving DecidableEq, Repr

/-- ExecEnvVar is used for setting environment variables when executing
an exec-based credential plugin (kubeconfig.go lines 133-136). -/
structure ExecEnvVar where
  Name : String := ""
  Value : String := ""
deriving DecidableEq, Repr

/-- ExecConfig contains information about an os command that returns an
auth token for the kubernetes cluster connection (kubeconfig.go lines
92-129). -/
structure ExecConfig where
  Command : String := ""
  Args : List String := []
  Env : List ExecEnvVar := []
  APIVersion : String := ""
  InstallHint : String := ""
  ProvideClusterInfo : Bool := false
  InteractiveMode : String := ""
deriving DecidableEq, Repr

/-- AuthInfo contains information that describes identity information
(kubeconfig.go lines 51-66).  The Go `*ExecConfig` pointer is modelled as
`Option ExecConfig`. -/
structure AuthInfo where
  ClientCertificate : String := ""
  ClientCertificateData : String := ""
  ClientKey : String := ""
  ClientKeyData : String := ""
  Exec : Option ExecConfig := none
  Token : String := ""
  TokenFile : String := ""
  Impersonate : String := ""
  ImpersonateUID : String := ""
  ImpersonateGroups : List String := []
  ImpersonateUserExtra : List String := []
  Username : String := ""
  Password : String := ""
deriving DecidableEq, Repr

/-- Context is a tuple of references to a cluster and an AuthInfo
(kubeconfig.go lines 139-142). -/
structure Context where
  Cluster : String := ""
  AuthInfo : String := ""
deriving DecidableEq, Repr

/-- Config represents the decoded configuration file for the kubernetes
API server connection (kubeconfig.go lines 22-38).  The three sequences
keep the original document order; a named entry whose nested body was
absent in the document carries `none` for that body, mirroring the Go
nil pointer. -/
structure Config where
  Kind : String := ""
  APIVersion : String := ""
  Clusters : List (String × Option Cluster) := []
  AuthInfos : List (String × Option AuthInfo) := []
  Contexts : List (String × Option Context) := []
  CurrentContext : String := ""
deriving DecidableEq, Repr

/-- Modelled from the spec: the basic-auth pair of the external
`lib/promauth` package.  The password is held by the secret wrapper
`promauth.NewSecret`; the wrapper is opaque, so it is modelled by the
wrapped string itself. -/
structure BasicAuthConfig where
  Username : String := ""
  Password : String := ""
deriving DecidableEq, Repr

/-- Modelled from the spec: the TLS material bundle of the external
`lib/promauth` package, holding exactly the fields `buildConfig`
assigns (CA bytes and file, client cert/key bytes and files, server
name, insecure flag).  Byte slices are lists of byte values. -/
structure TLSConfig where
  CA : List Nat := []
  CAFile : String := ""
  Cert : List Nat := []
  CertFile : String := ""
  Key : List Nat := []
  KeyFile : String := ""
  ServerName : String := ""
  InsecureSkipVerify : Bool := false
deriving DecidableEq, Repr

/-- kubeConfig is the resolved connection descriptor returned by
`buildConfig` (kubeconfig.go lines 144-151).  The Go nil pointers for
`basicAuth` and `tlsConfig` are `none`. -/
structure KubeConfig where
  basicAuth : Option BasicAuthConfig := none
  server : String := ""
  token : String := ""
  tokenFile : String := ""
  tlsConfig : Option TLSConfig := none
  proxyURL : Option String := none
deriving DecidableEq, Repr

/-- Failure of `AuthInfo.validate` (kubeconfig.go lines 68-89): either an
unsupported field, named, or a password given without a username. -/
inductive AuthErr where
  | unsupportedField (field : String)
  | invalidCredentials
deriving DecidableEq, Repr

/-- Failures of `buildConfig` (kubeconfig.go lines 177-238), one
constructor per distinct `fmt.Errorf` site of the resolution phase, each
carrying the name the Go error message interpolates. -/
inductive BuildErr where
  | contextNotFound (name : String)
  | clusterNotFound (name : String)
  | emptyServerAddress (ctxName : String)
  | authInfoNotFound (name : String)
  | base64DecodeError (field : String)
  | invalidAuthConfig (ctxName : String) (e : AuthErr)
deriving DecidableEq, Repr

/-- Modelled from the spec: value of a character in the standard base64
alphabet (RFC 4648), as used by Go's `encoding/base64` `StdEncoding`,
which is external to the repository. -/
def b64Index (c : Char) : Option Nat :=
  let n := c.toNat
  if 65 ≤ n ∧ n ≤ 90 then some (n - 65)
  else if 97 ≤ n ∧ n ≤ 122 then some (n - 97 + 26)
  else if 48 ≤ n ∧ n ≤ 57 then some (n - 48 + 52)
  else if n = 43 then some 62
  else if n = 47 then some 63
  else none

/-- Modelled from the spec: decoding of the newline-stripped character
stream in 4-character quanta with RFC 4648 padding, as Go's
`StdEncoding.DecodeString` does: a quantum `xy==` yields one byte, `xyz=`
two, a full quantum three; padding may only close the final quantum, and
any other length or alphabet violation is a decode error (`none`). -/
def b64DecodeQuanta : List Char → Option (List Nat)
  | [] => some []
  | c1 :: c2 :: c3 :: c4 :: rest =>
    match b64Index c1, b64Index c2 with
    | some i1, some i2 =>
      if c3 = '=' then
        if c4 = '=' ∧ rest = [] then some [i1 * 4 + i2 / 16] else none
      else
        match b64Index c3 with
        | some i3 =>
          if c4 = '=' then
            if rest = [] then some [i1 * 4 + i2 / 16, i2 % 16 * 16 + i3 / 4]
            else none
          else
            match b64Index c4 with
            | some i4 =>
              (b64DecodeQuanta rest).map
                (fun bs =>
                  (i1 * 4 + i2 / 16) :: (i2 % 16 * 16 + i3 / 4) ::
                    (i3 % 4 * 64 + i4) :: bs)
            | none => none
        | none => none
    | _, _ => none
  | _ => none

/-- Modelled from the spec: Go's `base64.StdEncoding.DecodeString`.  The
Go decoder skips carriage returns and newlines anywhere in the input and
otherwise consumes padded 4-character quanta; `none` is Go's non-nil
decode error. -/
def base64DecodeStd (s : String) : Option (List Nat) :=
  b64DecodeQuanta (s.data.filter (fun c => c != '\n' && c != '\r'))

/-- Name-keyed mapping built by the three insertion loops of
kubeconfig.go lines 164-175: iterate in original order, later entries
with a duplicate name overwriting earlier ones, exactly as repeated Go
map assignment.  The stored value is the possibly-nil body pointer. -/
def mkMap {α : Type} (l : List (String × Option α)) :
    String → Option (Option α) :=
  l.foldl (fun m p => fun k => if k = p.1 then some p.2 else m k)
    (fun _ => none)

/-- Reading a Go map of pointers: an absent key and a stored nil pointer
are indistinguishable, both giving the nil pointer (`none`). -/
def lookupPtr {α : Type} (m : String → Option (Option α)) (k : String) :
    Option α :=
  (m k).join

/-- Go `strings.HasPrefix` on UTF-8 strings, used at kubeconfig.go line
202 with the literal `"https://"`. -/
def hasPrefixStr (s p : String) : Bool :=
  List.isPrefixOf p.data s.data

/-- AuthInfo.validate (kubeconfig.go lines 68-89): `none` for a valid
entry, otherwise the error of the first failing check, in source
order. -/
def AuthInfo.validate (au : AuthInfo) : Option AuthErr :=
  if au.Exec.isSome then some (.unsupportedField "exec")
  else if au.ImpersonateUID.length > 0 then some (.unsupportedField "act-as-uid")
  else if au.Impersonate.length > 0 then some (.unsupportedField "act-as")
  else if au.ImpersonateGroups.length > 0 then some (.unsupportedField "act-as-groups")
  else if au.ImpersonateUserExtra.length > 0 then some (.unsupportedField "act-as-user-extra")
  else if au.Password.length > 0 ∧ au.Username.length = 0 then some .invalidCredentials
  else none

/-- TLS bundle initialisation of kubeconfig.go lines 199-210: over https
the bundle is allocated from the cluster's CA file path, server name and
insecure flag; otherwise it stays the nil pointer. -/
def initialTLS (isHTTPS : Bool) (cl : Cluster) : Option TLSConfig :=
  if isHTTPS then
    some { CAFile := cl.CertificateAuthority,
           ServerName := cl.TLSServerName,
           InsecureSkipVerify := cl.InsecureSkipTLSVerify }
  else none

/-- Inline CA decoding of kubeconfig.go lines 212-217: when CA data is
present and the scheme is https, base64-decode it into the bundle's CA
bytes; a decode error aborts resolution. -/
def decodeCAStep (isHTTPS : Bool) (cl : Cluster) (t : Option TLSConfig) :
    Except BuildErr (Option TLSConfig) :=
  if cl.CertificateAuthorityData.length > 0 ∧ isHTTPS then
    match base64DecodeStd cl.CertificateAuthorityData with
    | some ca => .ok (t.map (fun tc => { tc with CA := ca }))
    | none => .error (.base64DecodeError "certificate-authority-data")
  else .ok t

/-- Client TLS material of kubeconfig.go lines 223-239: over https the
client certificate and key file paths are copied into the bundle, and
the inline certificate data then the inline key data are base64-decoded
when present, each failure reported for its own field; over a non-https
scheme the bundle passes through untouched. -/
def authTLSStep (isHTTPS : Bool) (au : AuthInfo) (t : Option TLSConfig) :
    Except BuildErr (Option TLSConfig) :=
  if isHTTPS then
    let t1 := t.map (fun tc =>
      { tc with CertFile := au.ClientCertificate, KeyFile := au.ClientKey })
    let certStep : Except BuildErr (Option TLSConfig) :=
      if au.ClientCertificateData.length > 0 then
        match base64DecodeStd au.ClientCertificateData with
        | some cert => .ok (t1.map (fun tc => { tc with Cert := cert }))
        | none => .error (.base64DecodeError "client-certificate-data")
      else .ok t1
    match certStep with
    | .error e => .error e
    | .ok t2 =>
      if au.ClientKeyData.length > 0 then
        match base64DecodeStd au.ClientKeyData with
        | some key => .ok (t2.map (fun tc => { tc with Key := key }))
        | none => .error (.base64DecodeError "client-key-data")
      else .ok t2
  else .ok t

/-- Basic-auth assembly of kubeconfig.go lines 241-246: a pair is built
exactly when the username or the password is non-empty. -/
def mkBasicAuth (au : AuthInfo) : Option BasicAuthConfig :=
  if au.Username.length > 0 ∨ au.Password.length > 0 then
    some { Username := au.Username, Password := au.Password }
  else none

/-- Resolution phase of buildConfig (kubeconfig.go lines 164-260),
starting from the already-decoded `Config` and parameterised by the
validator applied to the resolved AuthInfo, so that insensitivity of a
run to the validator can be stated; the program instantiates it with
`AuthInfo.validate` (see `buildConfig`). -/
def buildConfigV (validator : AuthInfo → Option AuthErr) (config : Config) :
    Except BuildErr KubeConfig :=
  let authInfos := mkMap config.AuthInfos
  let clusterInfos := mkMap config.Clusters
  let contexts := mkMap config.Contexts
  let contextName := config.CurrentContext
  match lookupPtr contexts contextName with
  | none => .error (.contextNotFound contextName)
  | some configContext =>
    match lookupPtr clusterInfos configContext.Cluster with
    | none => .error (.clusterNotFound configContext.Cluster)
    | some configClusterInfo =>
      if configClusterInfo.Server.length = 0 then
        .error (.emptyServerAddress contextName)
      else
        let authInfoName := configContext.AuthInfo
        let configAuthInfo := lookupPtr authInfos authInfoName
        if authInfoName ≠ "" ∧ configAuthInfo = none then
          .error (.authInfoNotFound authInfoName)
        else
          let isHTTPS := hasPrefixStr configClusterInfo.Server "https://"
          match decodeCAStep isHTTPS configClusterInfo
              (initialTLS isHTTPS configClusterInfo) with
          | .error e => .error e
          | .ok tls1 =>
            match configAuthInfo with
            | none =>
              .ok { basicAuth := none,
                    server := configClusterInfo.Server,
                    token := "", tokenFile := "",
                    tlsConfig := tls1,
                    proxyURL := configClusterInfo.ProxyURL }
            | some au =>
              match validator au with
              | some e => .error (.invalidAuthConfig contextName e)
              | none =>
                match authTLSStep isHTTPS au tls1 with
                | .error e => .error e
                | .ok tls2 =>
                  .ok { basicAuth := mkBasicAuth au,
                        server := configClusterInfo.Server,
                        token := au.Token, tokenFile := au.TokenFile,
                        tlsConfig := tls2,
                        proxyURL := configClusterInfo.ProxyURL }

/-- buildConfig's resolution phase as the program runs it, with the
source's validator (kubeconfig.go line 220). -/
def buildConfig : Config → Except BuildErr KubeConfig :=
  buildConfigV AuthInfo.validate

/-- Validator rules as the specification states them (section "4.3"): an
ordered list of (condition, failure) pairs, the condition of each rule
being "the field is present / non-empty". -/
def authRuleList (au : AuthInfo) : List (Bool × AuthErr) :=
  [ (au.Exec.isSome, .unsupportedField "exec"),
    (au.ImpersonateUID != "", .unsupportedField "act-as-uid"),
    (au.Impersonate != "", .unsupportedField "act-as"),
    (!au.ImpersonateGroups.isEmpty, .unsupportedField "act-as-groups"),
    (!au.ImpersonateUserExtra.isEmpty, .unsupportedField "act-as-user-extra"),
    (au.Password != "" && au.Username == "", .invalidCredentials) ]

/-- Validator semantics as the specification states it: the first failing
rule wins, and an AuthInfo triggering no rule validates successfully. -/
def firstFailingRule (au : AuthInfo) : Option AuthErr :=
  ((authRuleList au).find? (fun r => r.1)).map (fun r => r.2)

theorem string_length_zero_iff (s : String) : s.length = 0 ↔ s = "" := by
  cases s with
  | mk data => simp [String.length, List.length_eq_zero, String.ext_iff]

theorem string_length_pos_iff (s : String) : 0 < s.length ↔ s ≠ "" := by
  rw [Nat.pos_iff_ne_zero, ne_eq, string_length_zero_iff]

theorem decodeCAStep_insecure (cl : Cluster) (t : Option TLSConfig) :
    decodeCAStep false cl t = .ok t := by
  simp [decodeCAStep]

theorem authTLSStep_insecure (au : AuthInfo) (t : Option TLSConfig) :
    authTLSStep false au t = .ok t := by
  simp [authTLSStep]

theorem decodeCAStep_error_val {b : Bool} {cl : Cluster}
    {t : Option TLSConfig} {e : BuildErr}
    (h : decodeCAStep b cl t = .error e) :
    e = .base64DecodeError "certificate-authority-data" := by
  unfold decodeCAStep at h
  split at h
  · split at h
    · exact absurd h (by simp)
    · cases h; rfl
  · exact absurd h (by simp)

theorem mkMapAux {α : Type} (l : List (String × Option α))
    (m : String → Option (Option α)) (name : String) :
    l.foldl (fun m p => fun k => if k = p.1 then some p.2 else m k) m name =
      match (l.filter (fun p => p.1 == name)).getLast? with
      | some p => some p.2
      | none => m name := by
  induction l generalizing m with
  | nil => rfl
  | cons p l ih =>
    simp only [List.foldl_cons, List.filter_cons]
    rw [ih]
    by_cases hp : p.1 = name
    · simp only [hp, beq_self_eq_true, if_pos]
      cases hfl : (l.filter (fun q => q.1 == name)) with
      | nil => simp [hfl]
      | cons f fs =>
        simp only [hfl, List.getLast?_cons_cons]
        cases hg : (f :: fs).getLast? with
        | none => simp at hg
        | some q => simp
    · have hb : (p.1 == name) = false := by simp [hp]
      simp only [hb, if_neg]
      have hn : ¬ (name = p.1) := fun he => hp he.symm
      cases hfl : (l.filter (fun q => q.1 == name)).getLast? <;> simp [hfl, hn]

/-- Inversion of a successful run of the builder: every `.ok` result
arises from a resolved context and cluster with a non-empty server, a
CA-decode step that succeeded, and either no resolved AuthInfo (then the
output has no credentials) or a resolved AuthInfo the validator passed
(then the output carries its credentials), the output's server and proxy
URL being the cluster's. -/
theorem buildConfigV_ok_inv {v : AuthInfo → Option AuthErr} {cfg : Config}
    {kc : KubeConfig} (h : buildConfigV v cfg = .ok kc) :
    ∃ ctx cl,
      lookupPtr (mkMap cfg.Contexts) cfg.CurrentContext = some ctx ∧
      lookupPtr (mkMap cfg.Clusters) ctx.Cluster = some cl ∧
      cl.Server.length ≠ 0 ∧
      kc.server = cl.Server ∧ kc.proxyURL = cl.ProxyURL ∧
      ∃ tls1,
        decodeCAStep (hasPrefixStr cl.Server "https://") cl
          (initialTLS (hasPrefixStr cl.Server "https://") cl) = .ok tls1 ∧
        ((lookupPtr (mkMap cfg.AuthInfos) ctx.AuthInfo = none ∧
          kc.basicAuth = none ∧ kc.token = "" ∧ kc.tokenFile = "" ∧
          kc.tlsConfig = tls1) ∨
        (∃ au,
          lookupPtr (mkMap cfg.AuthInfos) ctx.AuthInfo = some au ∧
          v au = none ∧
          ∃ tls2,
            authTLSStep (hasPrefixStr cl.Server "https://") au tls1 =
              .ok tls2 ∧
            kc.basicAuth = mkBasicAuth au ∧ kc.token = au.Token ∧
            kc.tokenFile = au.TokenFile ∧ kc.tlsConfig = tls2)) := by
  simp only [buildConfigV] at h
  split at h
  · exact absurd h (by simp)
  next ctx hctx =>
    split at h
    · exact absurd h (by simp)
    next cl hcl =>
      split at h
      · exact absurd h (by simp)
      next hserv =>
        split at h
        · exact absurd h (by simp)
        next hni =>
          split at h
          next e hca => exact absurd h (by simp)
          next tls1 hca =>
            refine ⟨ctx, cl, hctx, hcl, hserv, ?_⟩
            split at h
            next hnone =>
              cases h
              exact ⟨rfl, rfl, ⟨tls1, hca, Or.inl ⟨hnone, rfl, rfl, rfl, rfl⟩⟩⟩
            next au hau =>
              split at h
              · exact absurd h (by simp)
              next hval =>
                split at h
                · exact absurd h (by simp)
                next tls2 htls2 =>
                  cases h
                  exact ⟨rfl, rfl, ⟨tls1, hca,
                    Or.inr ⟨au, hau, hval, tls2, htls2, rfl, rfl, rfl, rfl⟩⟩⟩

theorem validate_password_rule {au : AuthInfo}
    (h : AuthInfo.validate au = none) :
    ¬(au.Password.length > 0 ∧ au.Username.length = 0) := by
  intro hc
  unfold AuthInfo.validate at h
  split_ifs at h

theorem mkBasicAuth_eq (au : AuthInfo) :
    mkBasicAuth au =
      (if au.Username ≠ "" ∨ au.Password ≠ "" then
        some { Username := au.Username, Password := au.Password }
      else none) := by
  unfold mkBasicAuth
  by_cases hu : au.Username = "" <;> by_cases hp : au.Password = "" <;>
    simp [hu, hp, string_length_pos_iff]

/-- Decoded config whose current context has an empty user reference
while the users sequence contains an entry named with the empty string
that carries a bearer token. -/
def cfgEmptyUserName : Config :=
  { Clusters := [("c", some { Server := "http://h" })],
    AuthInfos := [("", some { Token := "t" })],
    Contexts := [("x", some { Cluster := "c", AuthInfo := "" })],
    CurrentContext := "x" }

/-- Resolution result of `cfgEmptyUserName`: the empty-named user entry
is picked up and its bearer token is surfaced. -/
def kcEmptyUserName : KubeConfig :=
  { basicAuth := none, server := "http://h", token := "t", tokenFile := "",
    tlsConfig := none, proxyURL := none }

/-- Decoded config satisfying all of claim C1's hypotheses (resolvable
context, existing cluster, non-empty server, empty user reference) with
no user entry named with the empty string, whose cluster carries inline
CA data that is not valid standard base64 over an https server. -/
def cfgEmptyUserBadCA : Config :=
  { Clusters := [("c", some { Server := "https://h",
                              CertificateAuthorityData := "not-base64!" })],
    AuthInfos := [],
    Contexts := [("x", some { Cluster := "c", AuthInfo := "" })],
    CurrentContext := "x" }

/-- Claim C1, counterexample, exhibiting both defects of the claim at
concrete inputs that satisfy all its hypotheses.  First, the config
`cfgEmptyUserName` has a resolvable context and cluster with non-empty
server and an empty user reference, yet resolution surfaces the bearer
token `"t"` of the user entry named with the empty string, and the Auth
Validator is invoked: a rejecting validator turns the very same run into
a failure — so an empty user reference does not give "no credentials and
no validator invocation" regardless of the user entries.  Second, on
`cfgEmptyUserBadCA` — where no empty-named user entry exists at all —
resolution does not succeed: it fails with the certificate-authority-data
Base64DecodeError, so an empty user reference does not guarantee that
"resolution succeeds" either. -/
theorem claimC1_counterexample :
    (buildConfig cfgEmptyUserName = .ok kcEmptyUserName ∧
     kcEmptyUserName.token ≠ "" ∧
     buildConfigV (fun _ => some AuthErr.invalidCredentials)
         cfgEmptyUserName =
       .error (.invalidAuthConfig "x" .invalidCredentials)) ∧
    (base64DecodeStd "not-base64!" = none ∧
     lookupPtr (mkMap cfgEmptyUserBadCA.AuthInfos) "" = none ∧
     buildConfig cfgEmptyUserBadCA =
       .error (.base64DecodeError "certificate-authority-data")) :=
  ⟨⟨rfl, by decide, rfl⟩, ⟨by decide, rfl, rfl⟩⟩

/-- Claim C1 (amended): for every decoded config whose current context
resolves to an existing cluster with a non-empty server address, if the
context's user reference is the empty string AND the users mapping binds
no present user body to the empty name, then the run is insensitive to
the validator (the Auth Validator is never consulted), its result is
exactly the credential-free descriptor produced by the CA-decode step,
every success carries no basic-auth pair, no bearer token and no
token-file path, and the only possible failure is the
certificate-authority-data Base64DecodeError. -/
theorem claimC1 (cfg : Config) (ctx : Context) (cl : Cluster)
    (hctx : lookupPtr (mkMap cfg.Contexts) cfg.CurrentContext = some ctx)
    (hcl : lookupPtr (mkMap cfg.Clusters) ctx.Cluster = some cl)
    (hs : cl.Server ≠ "")
    (hu : ctx.AuthInfo = "")
    (hau : lookupPtr (mkMap cfg.AuthInfos) "" = none) :
    (∀ v, buildConfigV v cfg = buildConfig cfg) ∧
    buildConfig cfg =
      Except.map (fun tls =>
        { basicAuth := none, server := cl.Server, token := "",
          tokenFile := "", tlsConfig := tls, proxyURL := cl.ProxyURL })
        (decodeCAStep (hasPrefixStr cl.Server "https://") cl
          (initialTLS (hasPrefixStr cl.Server "https://") cl)) ∧
    (∀ kc, buildConfig cfg = .ok kc →
      kc.basicAuth = none ∧ kc.token = "" ∧ kc.tokenFile = "") ∧
    (∀ e, buildConfig cfg = .error e →
      e = .base64DecodeError "certificate-authority-data") := by
  have hau' : lookupPtr (mkMap cfg.AuthInfos) ctx.AuthInfo = none := by
    rw [hu]; exact hau
  have hs0 : ¬ cl.Server.length = 0 :=
    fun he => hs ((string_length_zero_iff _).mp he)
  have master : ∀ v, buildConfigV v cfg =
      Except.map (fun tls =>
        ({ basicAuth := none, server := cl.Server, token := "",
           tokenFile := "", tlsConfig := tls,
           proxyURL := cl.ProxyURL } : KubeConfig))
        (decodeCAStep (hasPrefixStr cl.Server "https://") cl
          (initialTLS (hasPrefixStr cl.Server "https://") cl)) := by
    intro v
    simp only [buildConfigV, hctx, hcl, hau', hs0, if_neg, hu]
    simp only [ne_eq, not_true_eq_false, false_and, if_false]
    cases hca : decodeCAStep (hasPrefixStr cl.Server "https://") cl
        (initialTLS (hasPrefixStr cl.Server "https://") cl) with
    | error e => simp [Except.map]
    | ok tls1 => simp [Except.map, hau]
  refine ⟨fun v => (master v).trans (master AuthInfo.validate).symm,
    master AuthInfo.validate, fun kc hkc => ?_, fun e he => ?_⟩
  · rw [show buildConfig cfg = buildConfigV AuthInfo.validate cfg from rfl,
      master AuthInfo.validate] at hkc
    cases hca : decodeCAStep (hasPrefixStr cl.Server "https://") cl
        (initialTLS (hasPrefixStr cl.Server "https://") cl) with
    | error e => rw [hca] at hkc; exact absurd hkc (by simp [Except.map])
    | ok tls1 =>
      rw [hca] at hkc
      simp only [Except.map] at hkc
      cases hkc
      exact ⟨rfl, rfl, rfl⟩
  · rw [show buildConfig cfg = buildConfigV AuthInfo.validate cfg from rfl,
      master AuthInfo.validate] at he
    cases hca : decodeCAStep (hasPrefixStr cl.Server "https://") cl
        (initialTLS (hasPrefixStr cl.Server "https://") cl) with
    | error e2 =>
      rw [hca] at he
      simp only [Except.map] at he
      cases he
      exact decodeCAStep_error_val hca
    | ok tls1 => rw [hca] at he; exact absurd he (by simp [Except.map])

/-- Decoded config whose context has an empty user reference, with a
normally-named user entry present that must not be picked up, and valid
inline CA data over https. -/
def cfgEmptyUserRef : Config :=
  { Clusters := [("c", some { Server := "https://h",
                              CertificateAuthorityData := "Zm9v" })],
    AuthInfos := [("u", some { Token := "tok", Username := "user1",
                               Password := "pw" })],
    Contexts := [("x", some { Cluster := "c", AuthInfo := "" })],
    CurrentContext := "x" }

/-- Resolution result of `cfgEmptyUserRef`: no credentials, decoded CA
bytes `foo`. -/
def kcEmptyUserRef : KubeConfig :=
  { basicAuth := none, server := "https://h", token := "", tokenFile := "",
    tlsConfig := some { CA := [102, 111, 111] }, proxyURL := none }

/-- Claim C1, witness: on `cfgEmptyUserRef` the amended claim gives a run
insensitive to the validator, succeeding with no credentials. -/
theorem claimC1_witness :
    buildConfigV (fun _ => some AuthErr.invalidCredentials)
        cfgEmptyUserRef =
      buildConfig cfgEmptyUserRef ∧
    buildConfig cfgEmptyUserRef = .ok kcEmptyUserRef ∧
    kcEmptyUserRef.basicAuth = none ∧ kcEmptyUserRef.token = "" ∧
    kcEmptyUserRef.tokenFile = "" := by
  have h := claimC1 cfgEmptyUserRef { Cluster := "c", AuthInfo := "" }
    { Server := "https://h", CertificateAuthorityData := "Zm9v" }
    rfl rfl (by decide) rfl rfl
  exact ⟨h.1 _, rfl, h.2.2.1 kcEmptyUserRef rfl⟩

/-- Decoded config over https with inline CA data that is not valid
standard base64 and a non-empty user reference absent from the users
sequence. -/
def cfgBadCAMissingUser : Config :=
  { Clusters := [("c", some { Server := "https://h",
                              CertificateAuthorityData := "not-base64!" })],
    AuthInfos := [],
    Contexts := [("x", some { Cluster := "c", AuthInfo := "u1" })],
    CurrentContext := "x" }

/-- Claim C2, counterexample.  On `cfgBadCAMissingUser` the inline CA
data is invalid base64 and the user reference `"u1"` is absent, yet
resolution fails with AuthInfoNotFound, not with the Base64DecodeError
the claim requires: in the code the user lookup (kubeconfig.go lines
193-197) runs before the CA decode (lines 212-217), the opposite of the
spec's step ordering. -/
theorem claimC2_counterexample :
    base64DecodeStd "not-base64!" = none ∧
    hasPrefixStr "https://h" "https://" = true ∧
    buildConfig cfgBadCAMissingUser = .error (.authInfoNotFound "u1") ∧
    buildConfig cfgBadCAMissingUser ≠
      .error (.base64DecodeError "certificate-authority-data") := by
  refine ⟨by decide, by decide, rfl, ?_⟩
  rw [show buildConfig cfgBadCAMissingUser =
    .error (.authInfoNotFound "u1") from rfl]
  simp

/-- Claim C2 (amended): for every decoded config where the current
context and its cluster resolve, the server address is non-empty and
https-prefixed, the cluster's inline certificate-authority-data is
present but not valid standard base64, and the context's user reference
is non-empty but absent from the user mapping, resolution fails with
AuthInfoNotFound — the builder performs the user existence check before
the CA decode, so the decode error is never reached. -/
theorem claimC2 (cfg : Config) (ctx : Context) (cl : Cluster)
    (hctx : lookupPtr (mkMap cfg.Contexts) cfg.CurrentContext = some ctx)
    (hcl : lookupPtr (mkMap cfg.Clusters) ctx.Cluster = some cl)
    (hs : cl.Server ≠ "")
    (hhttps : hasPrefixStr cl.Server "https://" = true)
    (hcapresent : cl.CertificateAuthorityData ≠ "")
    (hcabad : base64DecodeStd cl.CertificateAuthorityData = none)
    (hn : ctx.AuthInfo ≠ "")
    (hau : lookupPtr (mkMap cfg.AuthInfos) ctx.AuthInfo = none) :
    buildConfig cfg = .error (.authInfoNotFound ctx.AuthInfo) := by
  have hs0 : ¬ cl.Server.length = 0 :=
    fun he => hs ((string_length_zero_iff _).mp he)
  simp only [buildConfig, buildConfigV, hctx, hcl, hau, hs0, if_neg]
  simp [hn]

/-- Claim C2, witness: on `cfgBadCAMissingUser` the amended claim yields
the AuthInfoNotFound failure. -/
theorem claimC2_witness :
    buildConfig cfgBadCAMissingUser = .error (.authInfoNotFound "u1") :=
  claimC2 cfgBadCAMissingUser { Cluster := "c", AuthInfo := "u1" }
    { Server := "https://h", CertificateAuthorityData := "not-base64!" }
    rfl rfl (by decide) (by decide) (by decide) rfl (by decide) rfl

/-- Claim C3: for every decoded config whose resolved cluster's server
address does not start with "https://", a successful resolution returns
a descriptor whose TLS bundle is absent, whatever CA or client cert/key
data the cluster and user entries hold (the output's server equals the
resolved cluster's server, so the scheme test is stated on it). -/
theorem claimC3 (cfg : Config) (kc : KubeConfig)
    (h : buildConfig cfg = .ok kc)
    (hscheme : hasPrefixStr kc.server "https://" = false) :
    kc.tlsConfig = none := by
  obtain ⟨ctx, cl, hctx, hcl, hserv, hks, hproxy, tls1, hca, hrest⟩ :=
    buildConfigV_ok_inv h
  rw [hks] at hscheme
  rw [hscheme, decodeCAStep_insecure] at hca
  have htls1 : tls1 = none := by
    have := Except.ok.inj hca
    simpa [initialTLS] using this.symm
  rcases hrest with ⟨_, _, _, _, htc⟩ |
    ⟨au, hau, hval, tls2, htls2, _, _, _, htc⟩
  · rw [htc, htls1]
  · rw [hscheme, authTLSStep_insecure] at htls2
    have := Except.ok.inj htls2
    rw [htc, ← this, htls1]

/-- Decoded config with a plain-http server address and inline CA,
client-certificate and client-key data present (none of it even valid
base64): all of it must be dropped from the output. -/
def cfgHTTPCerts : Config :=
  { Clusters := [("c", some { Server := "http://host:1234",
                              CertificateAuthorityData := "!!bad!!" })],
    AuthInfos := [("u", some { ClientCertificate := "/cert.pem",
                               ClientCertificateData := "###",
                               ClientKey := "/key.pem",
                               ClientKeyData := "%%%" })],
    Contexts := [("x", some { Cluster := "c", AuthInfo := "u" })],
    CurrentContext := "x" }

/-- Resolution result of `cfgHTTPCerts`: no TLS bundle at all. -/
def kcHTTPCerts : KubeConfig :=
  { basicAuth := none, server := "http://host:1234", token := "",
    tokenFile := "", tlsConfig := none, proxyURL := none }

/-- Claim C3, witness: `cfgHTTPCerts` resolves successfully and the TLS
bundle is absent although certificate material was present. -/
theorem claimC3_witness :
    buildConfig cfgHTTPCerts = .ok kcHTTPCerts ∧
    kcHTTPCerts.tlsConfig = none :=
  ⟨rfl, claimC3 cfgHTTPCerts kcHTTPCerts rfl rfl⟩

/-- Claim C4: the name-keyed mapping built from an ordered sequence of
named entries binds each name to the later entry in the original order
(it is the last entry of the filtered-by-name sublist); in particular
two entries of the same name resolve to the second one, and an empty
input sequence yields the empty mapping with no failure. -/
theorem claimC4 (α : Type) (l : List (String × Option α)) (name : String) :
    mkMap l name =
      ((l.filter (fun p => p.1 == name)).getLast?).map (fun p => p.2) ∧
    mkMap ([] : List (String × Option α)) name = none ∧
    ∀ v1 v2 : Option α, mkMap [(name, v1), (name, v2)] name = some v2 := by
  refine ⟨?_, rfl, fun v1 v2 => ?_⟩
  · rw [mkMap, mkMapAux]
    cases (l.filter (fun p => p.1 == name)).getLast? <;> simp
  · simp [mkMap]

/-- Claim C5: the validator checks its six rules in the stated order
with the first failing rule winning — exec, then impersonation UID,
impersonation user, impersonation groups, impersonation extras, then
password-without-username — and an AuthInfo triggering none of them
validates successfully: `AuthInfo.validate` equals the first-failing-rule
scan of the specification's ordered rule list. -/
theorem claimC5 (au : AuthInfo) : au.validate = firstFailingRule au := by
  simp only [AuthInfo.validate, firstFailingRule, authRuleList,
    string_length_pos_iff]
  by_cases h1 : au.Exec.isSome <;>
    by_cases h2 : au.ImpersonateUID = "" <;>
      by_cases h3 : au.Impersonate = "" <;>
        by_cases h4 : au.ImpersonateGroups = [] <;>
          by_cases h5 : au.ImpersonateUserExtra = [] <;>
            by_cases h6 : au.Password = "" <;>
              by_cases h7 : au.Username = "" <;>
                simp_all [List.isEmpty_iff, List.length_pos,
                  string_length_zero_iff, Nat.pos_iff_ne_zero, bne_iff_ne,
                  List.find?_cons, Bool.cond_eq_ite]

/-- Claim C6: whenever resolution succeeds after the current context and
its cluster resolved, the output's server field is string-equal to the
referenced cluster's server field, with no normalization. -/
theorem claimC6 (cfg : Config) (ctx : Context) (cl : Cluster)
    (kc : KubeConfig)
    (hctx : lookupPtr (mkMap cfg.Contexts) cfg.CurrentContext = some ctx)
    (hcl : lookupPtr (mkMap cfg.Clusters) ctx.Cluster = some cl)
    (h : buildConfig cfg = .ok kc) :
    kc.server = cl.Server := by
  obtain ⟨ctx2, cl2, hctx2, hcl2, _, hks, _⟩ := buildConfigV_ok_inv h
  rw [hctx] at hctx2
  cases Option.some.inj hctx2
  rw [hcl] at hcl2
  cases Option.some.inj hcl2
  exact hks

/-- Well-formed end-to-end config of the specification's final testable
property: cluster `c1` at `https://10.0.0.1:6443` with CA data `Zm9v`,
user `u1` with token `abc123`, context `ctx1` pairing them. -/
def cfgE2E : Config :=
  { Clusters := [("c1", some { Server := "https://10.0.0.1:6443",
                               CertificateAuthorityData := "Zm9v" })],
    AuthInfos := [("u1", some { Token := "abc123" })],
    Contexts := [("ctx1", some { Cluster := "c1", AuthInfo := "u1" })],
    CurrentContext := "ctx1" }

/-- Claim C6, witness: the output server of `cfgE2E` is exactly the
referenced cluster's server string. -/
theorem claimC6_witness :
    ({ basicAuth := none, server := "https://10.0.0.1:6443",
       token := "abc123", tokenFile := "",
       tlsConfig := some { CA := [102, 111, 111] },
       proxyURL := none } : KubeConfig).server =
      "https://10.0.0.1:6443" :=
  claimC6 cfgE2E { Cluster := "c1", AuthInfo := "u1" }
    { Server := "https://10.0.0.1:6443",
      CertificateAuthorityData := "Zm9v" }
    { basicAuth := none, server := "https://10.0.0.1:6443",
      token := "abc123", tokenFile := "",
      tlsConfig := some { CA := [102, 111, 111] }, proxyURL := none }
    rfl rfl rfl

/-- Claim C7: the resolution step from a decoded Config to a resolved
descriptor or failure is a pure deterministic function of its input —
the embedding `buildConfig` is a total function, so equal decoded
configs give equal results; it reads no state outside its argument by
construction. -/
theorem claimC7 (c1 c2 : Config) (h : c1 = c2) :
    buildConfig c1 = buildConfig c2 :=
  congrArg buildConfig h

/-- Claim C7, witness: two invocations on the same decoded config agree. -/
theorem claimC7_witness : buildConfig cfgE2E = buildConfig cfgE2E :=
  claimC7 cfgE2E cfgE2E rfl

/-- Claim C8: every successfully returned descriptor satisfies the
invariant that a basic-auth pair with a non-empty password also has a
non-empty username — the validator's password-requires-username rule
composed with the builder's basic-auth assembly makes a password-only
pair unreachable. -/
theorem claimC8 (cfg : Config) (kc : KubeConfig) (ba : BasicAuthConfig)
    (h : buildConfig cfg = .ok kc) (hba : kc.basicAuth = some ba)
    (hpw : ba.Password ≠ "") : ba.Username ≠ "" := by
  obtain ⟨ctx, cl, _, _, _, _, _, tls1, _, hrest⟩ := buildConfigV_ok_inv h
  rcases hrest with ⟨_, hnone, _⟩ | ⟨au, _, hval, tls2, _, hba2, _⟩
  · rw [hnone] at hba; cases hba
  · rw [hba2] at hba
    unfold mkBasicAuth at hba
    split at hba
    · cases Option.some.inj hba
      have hrule := validate_password_rule hval
      intro hun
      exact hrule ⟨(string_length_pos_iff _).mpr hpw,
        (string_length_zero_iff _).mpr hun⟩
    · cases hba

/-- Decoded config whose user carries both a username and a password. -/
def cfgBasicAuth : Config :=
  { Clusters := [("c", some { Server := "https://h" })],
    AuthInfos := [("u", some { Username := "user1", Password := "pw1" })],
    Contexts := [("x", some { Cluster := "c", AuthInfo := "u" })],
    CurrentContext := "x" }

/-- Resolution result of `cfgBasicAuth`. -/
def kcBasicAuth : KubeConfig :=
  { basicAuth := some { Username := "user1", Password := "pw1" },
    server := "https://h", token := "", tokenFile := "",
    tlsConfig := some {}, proxyURL := none }

/-- Claim C8, witness: the basic-auth pair of `cfgBasicAuth`'s output,
having a non-empty password, has a non-empty username. -/
theorem claimC8_witness :
    ({ Username := "user1", Password := "pw1" } : BasicAuthConfig).Username
      ≠ "" :=
  claimC8 cfgBasicAuth kcBasicAuth
    { Username := "user1", Password := "pw1" } rfl rfl (by decide)

/-- Claim C9: whenever the current context resolved, its user reference
resolved to an AuthInfo and resolution succeeded, the bearer token, the
token-file path and the basic-auth pair (present exactly when the
username or the password is non-empty) are carried into the output —
with no hypothesis on the server address's scheme, so an insecure
server suppresses only TLS material, never credentials. -/
theorem claimC9 (cfg : Config) (ctx : Context) (au : AuthInfo)
    (kc : KubeConfig)
    (hctx : lookupPtr (mkMap cfg.Contexts) cfg.CurrentContext = some ctx)
    (hau : lookupPtr (mkMap cfg.AuthInfos) ctx.AuthInfo = some au)
    (h : buildConfig cfg = .ok kc) :
    kc.token = au.Token ∧ kc.tokenFile = au.TokenFile ∧
    kc.basicAuth =
      (if au.Username ≠ "" ∨ au.Password ≠ "" then
        some { Username := au.Username, Password := au.Password }
      else none) := by
  obtain ⟨ctx2, cl, hctx2, hcl, _, _, _, tls1, hca, hrest⟩ :=
    buildConfigV_ok_inv h
  rw [hctx] at hctx2
  cases Option.some.inj hctx2
  rcases hrest with ⟨hnone, _⟩ |
    ⟨au2, hau2, hval, tls2, htls2, hba, htok, htf, _⟩
  · rw [hau] at hnone; cases hnone
  · rw [hau] at hau2
    cases Option.some.inj hau2
    exact ⟨htok, htf, by rw [hba, mkBasicAuth_eq]⟩

/-- Decoded config with a plain-http server and a user carrying a
bearer token, a token file, a username and a password. -/
def cfgHTTPCreds : Config :=
  { Clusters := [("c", some { Server := "http://host:1234" })],
    AuthInfos := [("u", some { Token := "abc", TokenFile := "/tf",
                               Username := "user1", Password := "pw1" })],
    Contexts := [("x", some { Cluster := "c", AuthInfo := "u" })],
    CurrentContext := "x" }

/-- Resolution result of `cfgHTTPCreds`: all credentials surfaced, no
TLS bundle. -/
def kcHTTPCreds : KubeConfig :=
  { basicAuth := some { Username := "user1", Password := "pw1" },
    server := "http://host:1234", token := "abc", tokenFile := "/tf",
    tlsConfig := none, proxyURL := none }

/-- Claim C9, witness: over the plain-http server of `cfgHTTPCreds` the
token, token file and basic-auth pair are all carried into the output. -/
theorem claimC9_witness :
    kcHTTPCreds.token = "abc" ∧ kcHTTPCreds.tokenFile = "/tf" ∧
    kcHTTPCreds.basicAuth =
      some { Username := "user1", Password := "pw1" } := by
  have h := claimC9 cfgHTTPCreds { Cluster := "c", AuthInfo := "u" }
    { Token := "abc", TokenFile := "/tf", Username := "user1",
      Password := "pw1" } kcHTTPCreds rfl rfl rfl
  exact ⟨h.1, h.2.1, h.2.2.trans (if_pos (Or.inl (by decide)))⟩

/-- Claim C10: a named entry whose nested body is absent is treated as
non-existent by resolution — selecting the current context by such a
name, referencing such a cluster, or referencing such a user (with a
non-empty reference) fails with ContextNotFound, ClusterNotFound or
AuthInfoNotFound respectively, never acting as a zero-valued structure. -/
theorem claimC10 (cfg : Config) :
    (mkMap cfg.Contexts cfg.CurrentContext = some none →
      buildConfig cfg = .error (.contextNotFound cfg.CurrentContext)) ∧
    (∀ ctx, lookupPtr (mkMap cfg.Contexts) cfg.CurrentContext = some ctx →
      mkMap cfg.Clusters ctx.Cluster = some none →
      buildConfig cfg = .error (.clusterNotFound ctx.Cluster)) ∧
    (∀ ctx cl,
      lookupPtr (mkMap cfg.Contexts) cfg.CurrentContext = some ctx →
      lookupPtr (mkMap cfg.Clusters) ctx.Cluster = some cl →
      cl.Server ≠ "" → ctx.AuthInfo ≠ "" →
      mkMap cfg.AuthInfos ctx.AuthInfo = some none →
      buildConfig cfg = .error (.authInfoNotFound ctx.AuthInfo)) := by
  refine ⟨fun h => ?_, fun ctx hctx h => ?_,
    fun ctx cl hctx hcl hs hn h => ?_⟩
  · have h0 : lookupPtr (mkMap cfg.Contexts) cfg.CurrentContext = none := by
      simp [lookupPtr, h]
    simp only [buildConfig, buildConfigV, h0]
  · have h0 : lookupPtr (mkMap cfg.Clusters) ctx.Cluster = none := by
      simp [lookupPtr, h]
    simp only [buildConfig, buildConfigV, hctx, h0]
  · have hs0 : ¬ cl.Server.length = 0 :=
      fun he => hs ((string_length_zero_iff _).mp he)
    have hau : lookupPtr (mkMap cfg.AuthInfos) ctx.AuthInfo = none := by
      simp [lookupPtr, h]
    simp only [buildConfig, buildConfigV, hctx, hcl, hau, hs0, if_neg]
    simp [hn]

/-- Config whose current context names an entry with an absent body. -/
def cfgBodylessContext : Config :=
  { Contexts := [("x", none)], CurrentContext := "x" }

/-- Config whose context references a cluster entry with an absent
body. -/
def cfgBodylessCluster : Config :=
  { Clusters := [("c", none)],
    Contexts := [("x", some { Cluster := "c", AuthInfo := "" })],
    CurrentContext := "x" }

/-- Config whose context references a user entry with an absent body. -/
def cfgBodylessAuthInfo : Config :=
  { Clusters := [("c", some { Server := "https://h" })],
    AuthInfos := [("u", none)],
    Contexts := [("x", some { Cluster := "c", AuthInfo := "u" })],
    CurrentContext := "x" }

/-- Claim C10, witness: each of the three bodyless-entry configs fails
with its corresponding not-found error. -/
theorem claimC10_witness :
    buildConfig cfgBodylessContext = .error (.contextNotFound "x") ∧
    buildConfig cfgBodylessCluster = .error (.clusterNotFound "c") ∧
    buildConfig cfgBodylessAuthInfo = .error (.authInfoNotFound "u") :=
  ⟨(claimC10 cfgBodylessContext).1 rfl,
   (claimC10 cfgBodylessCluster).2.1 { Cluster := "c", AuthInfo := "" }
     rfl rfl,
   (claimC10 cfgBodylessAuthInfo).2.2 { Cluster := "c", AuthInfo := "u" }
     { Server := "https://h" } rfl rfl (by decide) (by decide) rfl⟩

end Kubeconfig
